import Mathlib

/-!
# Verification of the odos-sdk resilient HTTP transport core

Shallow embedding of the retry/backoff engine and the structured error
classifier of the odos-sdk repository (files `src/client.rs`, `src/error.rs`,
`src/error_code.rs`), together with theorems settling the specification
claims about them.

Modelling conventions:
* HTTP status codes are natural numbers; `reqwest::StatusCode::is_success`
  and friends become explicit range tests.
* `std::time::Duration` values produced by `Duration::from_secs` are
  modelled by the number of seconds (`Nat`).
* A `reqwest::Error` is abstracted by the three boolean probes the code
  inspects (`is_timeout`, `is_connect`, `is_request`).
* A trace id (a UUID in the source) is modelled by its string rendering.
* The outcome of reading a response body and running `serde_json::from_str`
  on it is modelled by the `ResponseBody` sum: `structured d t e` stands
  for a body that parses as `OdosApiErrorResponse` with `detail = d`,
  `trace_id = t`, `error_code = e`; `text raw` stands for a body whose
  text does not parse as that schema.
* The transport, the request-builder factory and the backoff generator are
  abstracted as functions of the attempt number, so one run of
  `execute_with_retry` is a pure computation.
-/

namespace OdosSdk

/-- `reqwest::StatusCode::is_success`: 2xx. -/
def isSuccessStatus (s : Nat) : Bool := 200 ≤ s && s < 300

/-- `reqwest::StatusCode::is_client_error`: 4xx. -/
def isClientErrorStatus (s : Nat) : Bool := 400 ≤ s && s < 500

/-- `reqwest::StatusCode::is_server_error`: 5xx. -/
def isServerErrorStatus (s : Nat) : Bool := 500 ≤ s && s < 600

/-- The boolean probes of a `reqwest::Error` that the code inspects. -/
structure HttpErrorFlags where
  is_timeout : Bool
  is_connect : Bool
  is_request : Bool
deriving DecidableEq, Repr

/-- `OdosErrorCode` from `src/error_code.rs`: strongly-typed Odos API error
codes, one variant per documented numeric code plus an `Unknown` escape
hatch carrying the raw number. -/
inductive OdosErrorCode where
  | ApiError
  | NoViablePath
  | AlgoValidationError
  | AlgoConnectionError
  | AlgoTimeout
  | AlgoInternal
  | InternalServiceError
  | ConfigInternal
  | ConfigConnectionError
  | ConfigTimeout
  | TxnAssemblyInternal
  | TxnAssemblyConnectionError
  | TxnAssemblyTimeout
  | ChainDataInternal
  | ChainDataConnectionError
  | ChainDataTimeout
  | PricingInternal
  | PricingConnectionError
  | PricingTimeout
  | GasInternal
  | GasConnectionError
  | GasTimeout
  | GasUnavailable
  | InvalidRequest
  | InvalidChainId
  | InvalidInputTokens
  | InvalidOutputTokens
  | InvalidUserAddr
  | BlockedUserAddr
  | TooSlippery
  | SameInputOutput
  | MultiZapOutput
  | InvalidTokenCount
  | InvalidTokenAddr
  | NonIntegerTokenAmount
  | NegativeTokenAmount
  | SameInputOutputTokens
  | TokenBlacklisted
  | InvalidTokenProportions
  | TokenRoutingUnavailable
  | InvalidReferralCode
  | InvalidTokenAmount
  | NonStringTokenAmount
  | InvalidAssemblyRequest
  | InvalidAssemblyUserAddr
  | InvalidReceiverAddr
  | InvalidSwapRequest
  | UserAddrRequired
  | InternalError
  | SwapUnavailable
  | PriceCheckFailure
  | DefaultGasFailure
  | Unknown (code : Nat)

namespace OdosErrorCode

/-- `OdosErrorCode::code`: the numeric error code value. -/
def code : OdosErrorCode → Nat
  | .ApiError => 1000
  | .NoViablePath => 2000
  | .AlgoValidationError => 2400
  | .AlgoConnectionError => 2997
  | .AlgoTimeout => 2998
  | .AlgoInternal => 2999
  | .InternalServiceError => 3000
  | .ConfigInternal => 3100
  | .ConfigConnectionError => 3101
  | .ConfigTimeout => 3102
  | .TxnAssemblyInternal => 3110
  | .TxnAssemblyConnectionError => 3111
  | .TxnAssemblyTimeout => 3112
  | .ChainDataInternal => 3120
  | .ChainDataConnectionError => 3121
  | .ChainDataTimeout => 3122
  | .PricingInternal => 3130
  | .PricingConnectionError => 3131
  | .PricingTimeout => 3132
  | .GasInternal => 3140
  | .GasConnectionError => 3141
  | .GasTimeout => 3142
  | .GasUnavailable => 3143
  | .InvalidRequest => 4000
  | .InvalidChainId => 4001
  | .InvalidInputTokens => 4002
  | .InvalidOutputTokens => 4003
  | .InvalidUserAddr => 4004
  | .BlockedUserAddr => 4005
  | .TooSlippery => 4006
  | .SameInputOutput => 4007
  | .MultiZapOutput => 4008
  | .InvalidTokenCount => 4009
  | .InvalidTokenAddr => 4010
  | .NonIntegerTokenAmount => 4011
  | .NegativeTokenAmount => 4012
  | .SameInputOutputTokens => 4013
  | .TokenBlacklisted => 4014
  | .InvalidTokenProportions => 4015
  | .TokenRoutingUnavailable => 4016
  | .InvalidReferralCode => 4017
  | .InvalidTokenAmount => 4018
  | .NonStringTokenAmount => 4019
  | .InvalidAssemblyRequest => 4100
  | .InvalidAssemblyUserAddr => 4101
  | .InvalidReceiverAddr => 4102
  | .InvalidSwapRequest => 4200
  | .UserAddrRequired => 4201
  | .InternalError => 5000
  | .SwapUnavailable => 5001
  | .PriceCheckFailure => 5002
  | .DefaultGasFailure => 5003
  | .Unknown c => c

/-- `impl From<u16> for OdosErrorCode`: the numeric-to-variant table, with
every unrecognized number preserved in `Unknown`. The Rust `match` on `u16`
literals is rendered as the equivalent chain of equality tests. -/
def fromU16 (c : Nat) : OdosErrorCode :=
  if c = 1000 then .ApiError
  else if c = 2000 then .NoViablePath
  else if c = 2400 then .AlgoValidationError
  else if c = 2997 then .AlgoConnectionError
  else if c = 2998 then .AlgoTimeout
  else if c = 2999 then .AlgoInternal
  else if c = 3000 then .InternalServiceError
  else if c = 3100 then .ConfigInternal
  else if c = 3101 then .ConfigConnectionError
  else if c = 3102 then .ConfigTimeout
  else if c = 3110 then .TxnAssemblyInternal
  else if c = 3111 then .TxnAssemblyConnectionError
  else if c = 3112 then .TxnAssemblyTimeout
  else if c = 3120 then .ChainDataInternal
  else if c = 3121 then .ChainDataConnectionError
  else if c = 3122 then .ChainDataTimeout
  else if c = 3130 then .PricingInternal
  else if c = 3131 then .PricingConnectionError
  else if c = 3132 then .PricingTimeout
  else if c = 3140 then .GasInternal
  else if c = 3141 then .GasConnectionError
  else if c = 3142 then .GasTimeout
  else if c = 3143 then .GasUnavailable
  else if c = 4000 then .InvalidRequest
  else if c = 4001 then .InvalidChainId
  else if c = 4002 then .InvalidInputTokens
  else if c = 4003 then .InvalidOutputTokens
  else if c = 4004 then .InvalidUserAddr
  else if c = 4005 then .BlockedUserAddr
  else if c = 4006 then .TooSlippery
  else if c = 4007 then .SameInputOutput
  else if c = 4008 then .MultiZapOutput
  else if c = 4009 then .InvalidTokenCount
  else if c = 4010 then .InvalidTokenAddr
  else if c = 4011 then .NonIntegerTokenAmount
  else if c = 4012 then .NegativeTokenAmount
  else if c = 4013 then .SameInputOutputTokens
  else if c = 4014 then .TokenBlacklisted
  else if c = 4015 then .InvalidTokenProportions
  else if c = 4016 then .TokenRoutingUnavailable
  else if c = 4017 then .InvalidReferralCode
  else if c = 4018 then .InvalidTokenAmount
  else if c = 4019 then .NonStringTokenAmount
  else if c = 4100 then .InvalidAssemblyRequest
  else if c = 4101 then .InvalidAssemblyUserAddr
  else if c = 4102 then .InvalidReceiverAddr
  else if c = 4200 then .InvalidSwapRequest
  else if c = 4201 then .UserAddrRequired
  else if c = 5000 then .InternalError
  else if c = 5001 then .SwapUnavailable
  else if c = 5002 then .PriceCheckFailure
  else if c = 5003 then .DefaultGasFailure
  else .Unknown c

/-- `ErrorCategory` from `src/error_code.rs`. -/
inductive Category where
  | General
  | Algo
  | InternalService
  | Validation
  | Internal
  | Unknown
deriving DecidableEq

/-- `OdosErrorCode::category`: category from the numeric range. -/
def category (c : OdosErrorCode) : Category :=
  let n := c.code
  if 1000 ≤ n ∧ n ≤ 1999 then .General
  else if 2000 ≤ n ∧ n ≤ 2999 then .Algo
  else if 3000 ≤ n ∧ n ≤ 3999 then .InternalService
  else if 4000 ≤ n ∧ n ≤ 4999 then .Validation
  else if 5000 ≤ n ∧ n ≤ 5999 then .Internal
  else .Unknown

/-- `OdosErrorCode::is_timeout`: timeout from any upstream service. -/
def is_timeout : OdosErrorCode → Bool
  | .AlgoTimeout | .ConfigTimeout | .TxnAssemblyTimeout
  | .ChainDataTimeout | .PricingTimeout | .GasTimeout => true
  | _ => false

/-- `OdosErrorCode::is_connection_error`: connection error from any
upstream service. -/
def is_connection_error : OdosErrorCode → Bool
  | .AlgoConnectionError | .ConfigConnectionError | .TxnAssemblyConnectionError
  | .ChainDataConnectionError | .PricingConnectionError | .GasConnectionError => true
  | _ => false

/-- `OdosErrorCode::is_retryable`: timeouts, connection errors, the
internal-error family and gas-unavailable are retryable. -/
def is_retryable (c : OdosErrorCode) : Bool :=
  c.is_timeout || c.is_connection_error ||
    (match c with
      | .AlgoInternal | .ConfigInternal | .TxnAssemblyInternal
      | .ChainDataInternal | .PricingInternal | .GasInternal
      | .GasUnavailable | .InternalServiceError | .InternalError => true
      | _ => false)

end OdosErrorCode

/-- `OdosError` from `src/error.rs`. Payloads the claims never inspect are
kept as their human-readable message strings; `Api` and `RateLimit` carry
the full structure used by the retry engine. -/
inductive OdosError where
  | Http (e : HttpErrorFlags)
  | Api (status : Nat) (message : String) (code : OdosErrorCode) (trace_id : Option String)
  | Json (msg : String)
  | Hex (msg : String)
  | InvalidInput (msg : String)
  | MissingData (msg : String)
  | UnsupportedChain (chain_id : Nat)
  | Contract (msg : String)
  | TransactionAssembly (msg : String)
  | QuoteRequest (msg : String)
  | Configuration (msg : String)
  | Timeout (msg : String)
  | RateLimit (message : String) (retry_after : Option Nat) (code : OdosErrorCode)
      (trace_id : Option String)
  | Internal (msg : String)

namespace OdosError

/-- `OdosError::is_retryable` from `src/error.rs`. -/
def is_retryable : OdosError → Bool
  | .Http e => e.is_timeout || e.is_connect || e.is_request
  | .Api status _ code _ =>
      match code with
      | .Unknown _ => status = 500 || status = 502 || status = 503 || status = 504
      | _ => code.is_retryable
  | .Timeout _ => true
  | .RateLimit _ _ _ _ => false
  | _ => false

/-- `OdosError::category` from `src/error.rs`: the category label used for
metrics. -/
def category : OdosError → String
  | .Http _ => "http"
  | .Api _ _ _ _ => "api"
  | .Json _ => "json"
  | .Hex _ => "hex"
  | .InvalidInput _ => "invalid_input"
  | .MissingData _ => "missing_data"
  | .UnsupportedChain _ => "unsupported_chain"
  | .Contract _ => "contract"
  | .TransactionAssembly _ => "transaction_assembly"
  | .QuoteRequest _ => "quote_request"
  | .Configuration _ => "configuration"
  | .Timeout _ => "timeout"
  | .RateLimit _ _ _ _ => "rate_limit"
  | .Internal _ => "internal"

end OdosError

/-- Model of Rust `str::parse::<u64>`, expressed over the character list:
an optional leading plus sign, then one or more ASCII digits, value within
the `u64` range; anything else is a parse failure. -/
def parseU64 (s : String) : Option Nat :=
  let cs :=
    match s.data with
    | '+' :: rest => rest
    | cs => cs
  if cs.isEmpty then none
  else if cs.all Char.isDigit then
    let n := cs.foldl (fun acc c => acc * 10 + (c.toNat - 48)) 0
    if n < 2 ^ 64 then some n else none
  else none

/-- `extract_retry_after` from `src/client.rs`: read the `retry-after`
header (modelled as `none` when absent or not valid UTF-8) and parse it as
a `u64` number of seconds. -/
def extract_retry_after (header : Option String) : Option Nat :=
  header.bind parseU64

/-- Outcome of reading a non-2xx response body and attempting the
`serde_json::from_str::<OdosApiErrorResponse>` parse (see the module
docstring). -/
inductive ResponseBody where
  | structured (detail : String) (traceId : String) (errorCode : Nat)
  | text (raw : String)

/-- `ParsedErrorResponse` from `src/client.rs`. -/
structure ParsedErrorResponse where
  message : String
  code : OdosErrorCode
  trace_id : Option String

/-- `parse_error_response` from `src/client.rs`: on a successful structured
parse, take the `detail`, map the numeric code through the table and keep
the trace id; otherwise fall back to the raw body text with `Unknown 0` and
no trace id. -/
def parse_error_response : ResponseBody → ParsedErrorResponse
  | .structured detail traceId errorCode =>
      { message := detail
        code := OdosErrorCode.fromU16 errorCode
        trace_id := some traceId }
  | .text raw =>
      { message := raw
        code := .Unknown 0
        trace_id := none }

/-- `RetryConfig` from `src/client.rs`. -/
structure RetryConfig where
  max_retries : Nat
  initial_backoff_ms : Nat
  retry_server_errors : Bool
  retry_predicate : Option (OdosError → Bool)

/-- `OdosHttpClient::should_retry` from `src/client.rs`: attempt cap first,
then the custom predicate if present, then the default taxonomy logic. -/
def should_retry (cfg : RetryConfig) (error : OdosError) (attempts : Nat) : Bool :=
  if cfg.max_retries ≤ attempts then false
  else
    match cfg.retry_predicate with
    | some predicate => predicate error
    | none =>
      match error with
      | .RateLimit _ _ _ _ => false
      | .Api status _ _ _ =>
          if isClientErrorStatus status then false
          else if isServerErrorStatus status then cfg.retry_server_errors
          else false
      | .Http e => e.is_timeout || e.is_connect || e.is_request
      | .Timeout _ => true
      | _ => false

/-- `should_retry` only sanctions a retry while the attempt counter is
strictly below `max_retries` (the cap is checked before anything else). -/
theorem should_retry_true_lt (cfg : RetryConfig) (e : OdosError) (k : Nat)
    (h : should_retry cfg e k = true) : k < cfg.max_retries := by
  by_cases hc : cfg.max_retries ≤ k
  · simp [should_retry, hc] at h
  · omega

/-- Raw outcome of one attempt, as scrutinised by `execute_with_retry`:
`response` is `Ok(Ok(response))` with a non-consumed body, `transportError`
is `Ok(Err(e))` (a `reqwest::Error`), and `elapsed` is `Err(_)` from the
enclosing `tokio::time::timeout`. -/
inductive AttemptResult where
  | response (status : Nat) (retryAfterHeader : Option String) (body : ResponseBody)
  | transportError (e : HttpErrorFlags)
  | elapsed

/-- Result of `execute_with_retry`: the success response (status and body)
or the classified error. -/
inductive RunResult where
  | ok (status : Nat) (body : ResponseBody)
  | err (e : OdosError)

/-- The environment a run of `execute_with_retry` unfolds in, all indexed
by the 1-based attempt number: `build k` is the outcome of
`request_builder_fn().build()` on attempt `k` (`some e` meaning it failed
with a `reqwest` error `e`), `transport k` the raw outcome of issuing
attempt `k`, and `nextBackoff k` the value of `backoff.next_backoff()`
after attempt `k` (`none` models an exhausted `max_elapsed_time` budget). -/
structure Env where
  build : Nat → Option HttpErrorFlags
  transport : Nat → AttemptResult
  nextBackoff : Nat → Option Nat

/-- The loop body of `OdosHttpClient::execute_with_retry` from
`src/client.rs`, entered with the already-incremented attempt counter `k`
(the Rust loop starts with `attempt = 0` and increments at the top, so the
first iteration runs with `attempt = 1`). Returns the final result paired
with the value of the attempt counter at the `return`, i.e. the total
number of attempts made. The `attempt >= max_retries` exhaustion check and
the `next_backoff` check at the bottom of the Rust loop are reproduced in
each fall-through branch. -/
def executeFrom (cfg : RetryConfig) (env : Env) (k : Nat) : RunResult × Nat :=
  match env.build k with
  | some e => (.err (.Http e), k)
  | none =>
    match env.transport k with
    | .response status hdr body =>
      if isSuccessStatus status then (.ok status body, k)
      else if status = 429 then
        let retry_after := extract_retry_after hdr
        let parsed := parse_error_response body
        let error := OdosError.RateLimit parsed.message retry_after parsed.code parsed.trace_id
        if hs : should_retry cfg error k = true then
          match retry_after with
          | some delay =>
            if delay ≠ 0 then
              executeFrom cfg env (k + 1)
            else
              if cfg.max_retries ≤ k then (.err error, k)
              else
                match env.nextBackoff k with
                | some _ => executeFrom cfg env (k + 1)
                | none => (.err error, k)
          | none =>
            if cfg.max_retries ≤ k then (.err error, k)
            else
              match env.nextBackoff k with
              | some _ => executeFrom cfg env (k + 1)
              | none => (.err error, k)
        else (.err error, k)
      else
        let parsed := parse_error_response body
        let error := OdosError.Api status parsed.message parsed.code parsed.trace_id
        if should_retry cfg error k = true then
          if cfg.max_retries ≤ k then (.err error, k)
          else
            match env.nextBackoff k with
            | some _ => executeFrom cfg env (k + 1)
            | none => (.err error, k)
        else (.err error, k)
    | .transportError e =>
      let error := OdosError.Http e
      if should_retry cfg error k = true then
        if cfg.max_retries ≤ k then (.err error, k)
        else
          match env.nextBackoff k with
          | some _ => executeFrom cfg env (k + 1)
          | none => (.err error, k)
      else (.err error, k)
    | .elapsed =>
      let error := OdosError.Timeout "Request timed out"
      if cfg.max_retries ≤ k then (.err error, k)
      else
        match env.nextBackoff k with
        | some _ => executeFrom cfg env (k + 1)
        | none => (.err error, k)
termination_by cfg.max_retries - k
decreasing_by
  all_goals
    first
      | omega
      | (have hlt := should_retry_true_lt _ _ _ hs; omega)

/-- `OdosHttpClient::execute_with_retry` from `src/client.rs`: run the
retry loop from the first attempt. The second component of the result is
the total number of attempts made. -/
def execute_with_retry (cfg : RetryConfig) (env : Env) : RunResult × Nat :=
  executeFrom cfg env 1

/-- Without a custom predicate, `should_retry` refuses every rate-limit
error, at every attempt count. -/
theorem should_retry_rateLimit_default (cfg : RetryConfig) (m : String) (ra : Option Nat)
    (c : OdosErrorCode) (t : Option String) (k : Nat)
    (hpred : cfg.retry_predicate = none) :
    should_retry cfg (.RateLimit m ra c t) k = false := by
  by_cases hc : cfg.max_retries ≤ k <;> simp [should_retry, hc, hpred]

/-- `RetryConfig` with `max_retries = 2` and a custom predicate that always
answers `true` (the claim asserts rate limits are never retried even then). -/
def alwaysTruePredConfig : RetryConfig :=
  { max_retries := 2, initial_backoff_ms := 100, retry_server_errors := true,
    retry_predicate := some fun _ => true }

/-- A transport that answers HTTP 429 with a plain-text body and no
`Retry-After` header on every attempt; request building always succeeds
and the exponential backoff never exhausts its time budget. -/
def always429Env : Env :=
  { build := fun _ => none
    transport := fun _ => .response 429 none (.text "Rate limit exceeded")
    nextBackoff := fun _ => some 1 }

/-- C1, counterexample: with a `retry_predicate` that always returns `true`
and `max_retries = 2`, a transport that always returns HTTP 429 leads to 2
attempts, not the 1 attempt the claim promises for every `RetryConfig`:
the custom predicate does override the rate-limit suppression, so a
rate-limit error can be retried by the internal loop. -/
theorem rate_limit_retried_under_always_true_predicate :
    (execute_with_retry alwaysTruePredConfig always429Env).2 = 2 ∧
    (execute_with_retry alwaysTruePredConfig always429Env).2 ≠ 1 := by
  have h : execute_with_retry alwaysTruePredConfig always429Env =
      (.err (.RateLimit "Rate limit exceeded" none (.Unknown 0) none), 2) := by
    unfold execute_with_retry
    rw [executeFrom]
    norm_num [alwaysTruePredConfig, always429Env, isSuccessStatus, parse_error_response,
      should_retry, extract_retry_after]
    rw [executeFrom]
    norm_num [isSuccessStatus, parse_error_response, should_retry, extract_retry_after]
  rw [h]
  exact ⟨rfl, by decide⟩

/-- Shared helper: without a custom predicate, a first-attempt HTTP 429
outcome ends the call immediately with the rate-limit classified error. -/
theorem rateLimit_first_attempt_no_pred (cfg : RetryConfig) (env : Env)
    (hdr : Option String) (body : ResponseBody)
    (hpred : cfg.retry_predicate = none)
    (hbuild : env.build 1 = none)
    (htrans : env.transport 1 = .response 429 hdr body) :
    execute_with_retry cfg env =
      (.err (.RateLimit (parse_error_response body).message (extract_retry_after hdr)
        (parse_error_response body).code (parse_error_response body).trace_id), 1) := by
  unfold execute_with_retry
  rw [executeFrom, hbuild, htrans]
  norm_num [isSuccessStatus, should_retry_rateLimit_default, hpred]

/-- C1, amended: for every `RetryConfig` *without* a custom
`retry_predicate` (any `max_retries`, `retry_server_errors` either way), an
HTTP 429 outcome on the first attempt ends the call at exactly 1 attempt
with the rate-limit classified error. -/
theorem rate_limit_never_retried_without_predicate (cfg : RetryConfig) (env : Env)
    (hdr : Option String) (body : ResponseBody)
    (hpred : cfg.retry_predicate = none)
    (hbuild : env.build 1 = none)
    (htrans : env.transport 1 = .response 429 hdr body) :
    execute_with_retry cfg env =
      (.err (.RateLimit (parse_error_response body).message (extract_retry_after hdr)
        (parse_error_response body).code (parse_error_response body).trace_id), 1) ∧
    (OdosError.RateLimit (parse_error_response body).message (extract_retry_after hdr)
        (parse_error_response body).code (parse_error_response body).trace_id).category
      = "rate_limit" :=
  ⟨rateLimit_first_attempt_no_pred cfg env hdr body hpred hbuild htrans, rfl⟩

/-- Concrete configuration for the C1 amendment witness: high retry budget,
server-error retries on, no custom predicate. -/
def witnessDefaultConfig : RetryConfig :=
  { max_retries := 5, initial_backoff_ms := 100, retry_server_errors := true,
    retry_predicate := none }

/-- A transport that answers HTTP 429 with `Retry-After: 30` on every
attempt. -/
def always429RetryAfterEnv : Env :=
  { build := fun _ => none
    transport := fun _ => .response 429 (some "30") (.text "Rate limit exceeded")
    nextBackoff := fun _ => some 1 }

/-- Witness for the C1 amendment at a concrete configuration. -/
theorem rate_limit_never_retried_without_predicate_witness :
    execute_with_retry witnessDefaultConfig always429RetryAfterEnv =
      (.err (.RateLimit "Rate limit exceeded" (some 30) (.Unknown 0) none), 1) := by
  have h := rate_limit_never_retried_without_predicate witnessDefaultConfig
    always429RetryAfterEnv (some "30") (.text "Rate limit exceeded") rfl rfl rfl
  have h30 : extract_retry_after (some "30") = some 30 := by decide
  rw [h.1, h30]
  rfl

/-- Default-shaped `RetryConfig` with `max_retries = 3` and no custom
predicate, used for the C2 failing run. -/
def maxRetriesThreeConfig : RetryConfig :=
  { max_retries := 3, initial_backoff_ms := 100, retry_server_errors := true,
    retry_predicate := none }

/-- A transport that answers HTTP 503 with a plain-text body on every
attempt. -/
def always503Env : Env :=
  { build := fun _ => none
    transport := fun _ => .response 503 none (.text "Service unavailable")
    nextBackoff := fun _ => some 1 }

/-- C2, evaluation at the failing input: with `max_retries = 3`, default
retry logic and a transport that always returns the retryable failure HTTP
503, the loop makes exactly 3 attempts — `max_retries` total attempts, not
the `max_retries + 1` the claim (and the code's own "3 retries" default
documentation) promises — and returns the classification of the last
attempt. -/
theorem retry_cap_off_by_one_at_three :
    execute_with_retry maxRetriesThreeConfig always503Env =
      (.err (.Api 503 "Service unavailable" (.Unknown 0) none), 3) ∧
    (execute_with_retry maxRetriesThreeConfig always503Env).2 ≠ 4 := by
  have h : execute_with_retry maxRetriesThreeConfig always503Env =
      (.err (.Api 503 "Service unavailable" (.Unknown 0) none), 3) := by
    unfold execute_with_retry
    rw [executeFrom]
    norm_num [maxRetriesThreeConfig, always503Env, isSuccessStatus, parse_error_response,
      should_retry, isClientErrorStatus, isServerErrorStatus]
    rw [executeFrom]
    norm_num [isSuccessStatus, parse_error_response, should_retry,
      isClientErrorStatus, isServerErrorStatus]
    rw [executeFrom]
    norm_num [isSuccessStatus, parse_error_response, should_retry,
      isClientErrorStatus, isServerErrorStatus]
  exact ⟨h, by rw [h]; decide⟩

/-- `RetryConfig` with `max_retries = 3` and a custom predicate that always
answers `false`. -/
def alwaysFalsePredConfig : RetryConfig :=
  { max_retries := 3, initial_backoff_ms := 100, retry_server_errors := true,
    retry_predicate := some fun _ => false }

/-- A transport under which every attempt exceeds the per-attempt timeout
(the `tokio::time::timeout` wrapper elapses). -/
def alwaysElapsedEnv : Env :=
  { build := fun _ => none
    transport := fun _ => .elapsed
    nextBackoff := fun _ => some 1 }

/-- C3, counterexample: a `retry_predicate` that always returns `false`
does *not* yield exactly 1 attempt for the timeout classification: when the
per-attempt timeout elapses, `execute_with_retry` constructs the
`Timeout` error and retries without ever consulting `should_retry`, so with
`max_retries = 3` the loop makes 3 attempts. -/
theorem predicate_ignored_for_elapsed_timeout :
    (execute_with_retry alwaysFalsePredConfig alwaysElapsedEnv).2 = 3 ∧
    (execute_with_retry alwaysFalsePredConfig alwaysElapsedEnv).2 ≠ 1 := by
  have h : execute_with_retry alwaysFalsePredConfig alwaysElapsedEnv =
      (.err (.Timeout "Request timed out"), 3) := by
    unfold execute_with_retry
    rw [executeFrom]
    norm_num [alwaysFalsePredConfig, alwaysElapsedEnv]
    rw [executeFrom]
    norm_num
    rw [executeFrom]
    norm_num
  rw [h]
  exact ⟨rfl, by decide⟩

/-- Shared helper: under a constant non-2xx, non-429 response, a
never-failing builder, a never-exhausting backoff, and a retry verdict
that is positive strictly below the cap, the loop runs until the attempt
counter reaches `max_retries` (or stops after the first attempt when
`max_retries ≤ 1`) and returns the classification of the last attempt. -/
theorem executeFrom_const_response_exhaust (cfg : RetryConfig) (env : Env)
    (status : Nat) (hdr : Option String) (body : ResponseBody)
    (hsucc : isSuccessStatus status = false) (h429 : status ≠ 429)
    (hb : ∀ k, env.build k = none)
    (ht : ∀ k, env.transport k = .response status hdr body)
    (hback : ∀ k, env.nextBackoff k = some 1)
    (hverdict : ∀ k, k < cfg.max_retries →
      should_retry cfg (.Api status (parse_error_response body).message
        (parse_error_response body).code (parse_error_response body).trace_id) k = true) :
    ∀ a, 1 ≤ a → executeFrom cfg env a =
      (.err (.Api status (parse_error_response body).message
        (parse_error_response body).code (parse_error_response body).trace_id),
       max cfg.max_retries a) := by
  have main : ∀ m a, cfg.max_retries - a = m → 1 ≤ a →
      executeFrom cfg env a =
        (.err (.Api status (parse_error_response body).message
          (parse_error_response body).code (parse_error_response body).trace_id),
         max cfg.max_retries a) := by
    intro m
    induction m with
    | zero =>
      intro a hm ha
      have hge : cfg.max_retries ≤ a := by omega
      have hsr : should_retry cfg (.Api status (parse_error_response body).message
          (parse_error_response body).code (parse_error_response body).trace_id) a
          = false := by
        simp [should_retry, hge]
      rw [executeFrom, hb a, ht a]
      simp [hsucc, h429, hsr]
      omega
    | succ m ih =>
      intro a hm ha
      have hlt : a < cfg.max_retries := by omega
      have hnle : ¬ cfg.max_retries ≤ a := by omega
      rw [executeFrom, hb a, ht a]
      simp [hsucc, h429, hverdict a hlt, hnle, hback a]
      rw [ih (a + 1) (by omega) (by omega)]
      have hmax : max cfg.max_retries (a + 1) = max cfg.max_retries a := by omega
      rw [hmax]
  intro a ha
  exact main (cfg.max_retries - a) a rfl ha

/-- C3, amended: the `retry_predicate` fully replaces the default
retryability logic for every classification the loop routes through
`should_retry` — HTTP error responses (including 429) and `reqwest`
transport errors. An always-`false` predicate stops after exactly 1
attempt even for an otherwise-retryable transport error (e.g. a timeout
flag), and an always-`true` predicate keeps retrying an HTTP 400, which
the default logic never retries, until the `max_retries` attempt cap. The
elapsed-per-attempt-timeout classification is excluded: it never consults
`should_retry` (see the counterexample). -/
theorem predicate_fully_overrides_for_decided_errors :
    (∀ (cfg : RetryConfig) (env : Env) (e : HttpErrorFlags),
      cfg.retry_predicate = some (fun _ => false) →
      env.build 1 = none → env.transport 1 = .transportError e →
      execute_with_retry cfg env = (.err (.Http e), 1))
    ∧ (∀ (cfg : RetryConfig) (env : Env),
      cfg.retry_predicate = some (fun _ => true) →
      (∀ k, env.build k = none) →
      (∀ k, env.transport k = .response 400 none (.text "Bad request")) →
      (∀ k, env.nextBackoff k = some 1) →
      (execute_with_retry cfg env).2 = max cfg.max_retries 1) := by
  constructor
  · intro cfg env e hpred hbuild htrans
    have hsr : should_retry cfg (.Http e) 1 = false := by
      by_cases hc : cfg.max_retries ≤ 1 <;> simp [should_retry, hc, hpred]
    unfold execute_with_retry
    rw [executeFrom, hbuild, htrans]
    simp [hsr]
  · intro cfg env hpred hb ht hback
    have hverdict : ∀ k, k < cfg.max_retries →
        should_retry cfg (.Api 400 (parse_error_response (.text "Bad request")).message
          (parse_error_response (.text "Bad request")).code
          (parse_error_response (.text "Bad request")).trace_id) k = true := by
      intro k hk
      have hnle : ¬ cfg.max_retries ≤ k := by omega
      simp [should_retry, hnle, hpred]
    have h := executeFrom_const_response_exhaust cfg env 400 none (.text "Bad request")
      (by decide) (by decide) hb ht hback hverdict 1 (by omega)
    unfold execute_with_retry
    rw [h]

/-- `RetryConfig` with `max_retries = 2` and a custom predicate that always
answers `true`, for the C3 witness. -/
def c3AlwaysTrueConfig : RetryConfig :=
  { max_retries := 2, initial_backoff_ms := 100, retry_server_errors := true,
    retry_predicate := some fun _ => true }

/-- A transport failing every attempt with a `reqwest` timeout error, for
the C3 witness. -/
def timeoutFlagsEnv : Env :=
  { build := fun _ => none
    transport := fun _ => .transportError ⟨true, false, false⟩
    nextBackoff := fun _ => some 1 }

/-- A transport that answers HTTP 400 with a plain-text body on every
attempt, for the C3 witness. -/
def always400Env : Env :=
  { build := fun _ => none
    transport := fun _ => .response 400 none (.text "Bad request")
    nextBackoff := fun _ => some 1 }

/-- Witness for the C3 amendment at concrete inputs: an always-`false`
predicate returns the transport timeout after exactly 1 attempt even
though the default logic would retry it, and an always-`true` predicate
drives an HTTP 400 — never retryable by default — to the attempt cap. -/
theorem predicate_fully_overrides_for_decided_errors_witness :
    execute_with_retry alwaysFalsePredConfig timeoutFlagsEnv =
      (.err (.Http ⟨true, false, false⟩), 1) ∧
    (execute_with_retry c3AlwaysTrueConfig always400Env).2 = max 2 1 := by
  constructor
  · exact predicate_fully_overrides_for_decided_errors.1 alwaysFalsePredConfig
      timeoutFlagsEnv ⟨true, false, false⟩ rfl rfl rfl
  · exact predicate_fully_overrides_for_decided_errors.2 c3AlwaysTrueConfig
      always400Env rfl (fun _ => rfl) (fun _ => rfl) (fun _ => rfl)

/-- C4: under the default retryability logic (no `retry_predicate`), a
client-error response (4xx other than 429) on the first attempt ends the
call at exactly 1 attempt regardless of `max_retries`, and for a
server-error (5xx) classification the retry verdict — attempt budget
permitting — equals the `retry_server_errors` toggle. -/
theorem client_error_never_retried_server_error_configurable :
    (∀ (cfg : RetryConfig) (env : Env) (status : Nat) (hdr : Option String)
      (body : ResponseBody),
      cfg.retry_predicate = none →
      isClientErrorStatus status = true → status ≠ 429 →
      env.build 1 = none → env.transport 1 = .response status hdr body →
      execute_with_retry cfg env =
        (.err (.Api status (parse_error_response body).message
          (parse_error_response body).code (parse_error_response body).trace_id), 1))
    ∧ (∀ (cfg : RetryConfig) (status : Nat) (m : String) (c : OdosErrorCode)
      (t : Option String) (a : Nat),
      cfg.retry_predicate = none → a < cfg.max_retries →
      isServerErrorStatus status = true →
      should_retry cfg (.Api status m c t) a = cfg.retry_server_errors) := by
  constructor
  · intro cfg env status hdr body hpred hclient h429 hbuild htrans
    have hrange : 400 ≤ status ∧ status < 500 := by
      simpa [isClientErrorStatus] using hclient
    have hsucc : isSuccessStatus status = false := by
      simp [isSuccessStatus]
      omega
    have hsr : should_retry cfg (.Api status (parse_error_response body).message
        (parse_error_response body).code (parse_error_response body).trace_id) 1
        = false := by
      by_cases hc : cfg.max_retries ≤ 1 <;> simp [should_retry, hc, hpred, hclient]
    unfold execute_with_retry
    rw [executeFrom, hbuild, htrans]
    simp [hsucc, h429, hsr]
  · intro cfg status m c t a hpred hbudget hserver
    have hrange : 500 ≤ status ∧ status < 600 := by
      simpa [isServerErrorStatus] using hserver
    have hnle : ¬ cfg.max_retries ≤ a := by omega
    have hclient : isClientErrorStatus status = false := by
      simp [isClientErrorStatus]
      omega
    simp [should_retry, hnle, hpred, hclient, hserver]

/-- A transport that answers HTTP 400 with a structured body on every
attempt, for the C4 witness. -/
def c4BadRequestEnv : Env :=
  { build := fun _ => none
    transport := fun _ =>
      .response 400 none (.structured "Invalid chain ID" "a0b1c2d3" 4001)
    nextBackoff := fun _ => some 1 }

/-- Default-shaped configuration for the C4 witness. -/
def c4DefaultConfig : RetryConfig :=
  { max_retries := 3, initial_backoff_ms := 100, retry_server_errors := true,
    retry_predicate := none }

/-- Witness for C4 at concrete inputs: an HTTP 400 run stops after one
attempt with the parsed structured error, and the 503 verdict at attempt 1
equals the configured `retry_server_errors`. -/
theorem client_error_never_retried_server_error_configurable_witness :
    execute_with_retry c4DefaultConfig c4BadRequestEnv =
      (.err (.Api 400 "Invalid chain ID" .InvalidChainId (some "a0b1c2d3")), 1) ∧
    should_retry c4DefaultConfig (.Api 503 "Service unavailable" (.Unknown 0) none) 1
      = c4DefaultConfig.retry_server_errors := by
  constructor
  · have h := client_error_never_retried_server_error_configurable.1 c4DefaultConfig
      c4BadRequestEnv 400 none (.structured "Invalid chain ID" "a0b1c2d3" 4001)
      rfl (by decide) (by decide) rfl rfl
    rw [h]
    rfl
  · exact client_error_never_retried_server_error_configurable.2 c4DefaultConfig
      503 "Service unavailable" (.Unknown 0) none 1 rfl (by decide) (by decide)

/-- C5: retryability of `api`-classified errors. With a known (non-
`Unknown`) error code the verdict delegates to the code's own
retryability flag; with an `Unknown` code it falls back to the HTTP
status, retrying exactly on 500, 502, 503 and 504. Upstream timeout and
connection-error codes are retryable; validation-category codes and the
blocked-address code are not. -/
theorem api_retryability_classification :
    (∀ (status : Nat) (m : String) (t : Option String) (c : OdosErrorCode),
      (∀ n, c ≠ .Unknown n) →
      (OdosError.Api status m c t).is_retryable = c.is_retryable)
    ∧ (∀ (status : Nat) (m : String) (t : Option String) (n : Nat),
      (OdosError.Api status m (.Unknown n) t).is_retryable =
        (status = 500 || status = 502 || status = 503 || status = 504))
    ∧ (∀ c : OdosErrorCode, c.is_timeout || c.is_connection_error → c.is_retryable = true)
    ∧ (∀ c : OdosErrorCode, c.category = .Validation → c.is_retryable = false)
    ∧ OdosErrorCode.BlockedUserAddr.is_retryable = false := by
  refine ⟨?_, ?_, ?_, ?_, rfl⟩
  · intro status m t c hc
    cases c <;> first
      | rfl
      | exact absurd rfl (hc _)
  · intro status m t n
    rfl
  · intro c h
    simp only [OdosErrorCode.is_retryable, h, Bool.true_or]
  · intro c
    cases c <;> intro h <;> first
      | rfl
      | exact absurd h (by decide)

/-- Witness for C5 at concrete inputs: the upstream-timeout code 2998 makes
a 400-status api error retryable, the unknown code 9999 under status 502
is retryable by the status fallback, under status 501 it is not, and the
blocked-address code 4005 is never retryable. -/
theorem api_retryability_classification_witness :
    (OdosError.Api 400 "m" .AlgoTimeout none).is_retryable = true ∧
    (OdosError.Api 502 "m" (.Unknown 9999) none).is_retryable = true ∧
    (OdosError.Api 501 "m" (.Unknown 9999) none).is_retryable = false ∧
    (OdosError.Api 200 "m" .BlockedUserAddr none).is_retryable = false := by
  obtain ⟨h1, h2, h3, h4, -⟩ := api_retryability_classification
  refine ⟨?_, ?_, ?_, ?_⟩
  · rw [h1 400 "m" none .AlgoTimeout (fun n h => OdosErrorCode.noConfusion h)]
    exact h3 .AlgoTimeout (by decide)
  · rw [h2 502 "m" none 9999]
    decide
  · rw [h2 501 "m" none 9999]
    decide
  · rw [h1 200 "m" none .BlockedUserAddr (fun n h => OdosErrorCode.noConfusion h)]
    exact h4 .BlockedUserAddr (by decide)

/-- C6: the `Retry-After` extraction maps the literal `"0"` to
`some 0` seconds, an absent header to `none`, and any unparsable value to
`none`; the rate-limit classification is never retryable; and in the loop
a first-attempt 429 with `Retry-After: 0` returns a rate-limit error whose
`retry_after` field is `some 0` — preserved, not coerced to `none` —
while a 429 without the header returns `retry_after = none`. -/
theorem retry_after_zero_distinguished_from_absent :
    extract_retry_after (some "0") = some 0
    ∧ extract_retry_after none = none
    ∧ (∀ s, parseU64 s = none → extract_retry_after (some s) = none)
    ∧ extract_retry_after (some "not-a-number") = none
    ∧ (∀ (m : String) (ra : Option Nat) (c : OdosErrorCode) (t : Option String),
      (OdosError.RateLimit m ra c t).is_retryable = false)
    ∧ (∀ (cfg : RetryConfig) (env : Env) (body : ResponseBody),
      cfg.retry_predicate = none → env.build 1 = none →
      env.transport 1 = .response 429 (some "0") body →
      execute_with_retry cfg env =
        (.err (.RateLimit (parse_error_response body).message (some 0)
          (parse_error_response body).code (parse_error_response body).trace_id), 1))
    ∧ (∀ (cfg : RetryConfig) (env : Env) (body : ResponseBody),
      cfg.retry_predicate = none → env.build 1 = none →
      env.transport 1 = .response 429 none body →
      execute_with_retry cfg env =
        (.err (.RateLimit (parse_error_response body).message none
          (parse_error_response body).code (parse_error_response body).trace_id), 1)) := by
  refine ⟨by decide, rfl, ?_, by decide, fun m ra c t => rfl, ?_, ?_⟩
  · intro s h
    simp [extract_retry_after, h]
  · intro cfg env body hpred hbuild htrans
    have he : extract_retry_after (some "0") = some 0 := by decide
    rw [← he]
    exact rateLimit_first_attempt_no_pred cfg env (some "0") body hpred hbuild htrans
  · intro cfg env body hpred hbuild htrans
    exact rateLimit_first_attempt_no_pred cfg env none body hpred hbuild htrans

/-- Default-shaped configuration for the C6 witness. -/
def c6DefaultConfig : RetryConfig :=
  { max_retries := 3, initial_backoff_ms := 100, retry_server_errors := true,
    retry_predicate := none }

/-- A transport answering HTTP 429 with `Retry-After: 0` on every attempt. -/
def c6Zero429Env : Env :=
  { build := fun _ => none
    transport := fun _ => .response 429 (some "0") (.text "Rate limit exceeded")
    nextBackoff := fun _ => some 1 }

/-- A transport answering HTTP 429 with no `Retry-After` header on every
attempt. -/
def c6NoHeader429Env : Env :=
  { build := fun _ => none
    transport := fun _ => .response 429 none (.text "Rate limit exceeded")
    nextBackoff := fun _ => some 1 }

/-- Witness for C6 at concrete inputs. -/
theorem retry_after_zero_distinguished_from_absent_witness :
    extract_retry_after (some "abc") = none ∧
    execute_with_retry c6DefaultConfig c6Zero429Env =
      (.err (.RateLimit "Rate limit exceeded" (some 0) (.Unknown 0) none), 1) ∧
    execute_with_retry c6DefaultConfig c6NoHeader429Env =
      (.err (.RateLimit "Rate limit exceeded" none (.Unknown 0) none), 1) := by
  obtain ⟨-, -, h3, -, -, h6, h7⟩ := retry_after_zero_distinguished_from_absent
  refine ⟨h3 "abc" (by decide), ?_, ?_⟩
  · exact h6 c6DefaultConfig c6Zero429Env (.text "Rate limit exceeded") rfl rfl rfl
  · exact h7 c6DefaultConfig c6NoHeader429Env (.text "Rate limit exceeded") rfl rfl rfl

/-- Configuration with no retries, for the C7 run. -/
def c7NoRetriesConfig : RetryConfig :=
  { max_retries := 0, initial_backoff_ms := 100, retry_server_errors := true,
    retry_predicate := none }

/-- A transport answering HTTP 500 whose body parses as the structured
error document with detail "Error getting quote, please try again", trace
id `10becdc8-a021-4491-8201-a17b657204e0` and numeric code 2999. -/
def c7StructuredEnv : Env :=
  { build := fun _ => none
    transport := fun _ => .response 500 none
      (.structured "Error getting quote, please try again"
        "10becdc8-a021-4491-8201-a17b657204e0" 2999)
    nextBackoff := fun _ => some 1 }

/-- C7: parsing the structured 500 body with numeric code 2999 yields the
`AlgoInternal` variant (whose numeric code is 2999), the trace id and the
detail message, and the loop classifies it as an `api`-category error
carrying exactly those fields. -/
theorem structured_error_parsing_round_trip :
    parse_error_response (.structured "Error getting quote, please try again"
        "10becdc8-a021-4491-8201-a17b657204e0" 2999) =
      { message := "Error getting quote, please try again"
        code := .AlgoInternal
        trace_id := some "10becdc8-a021-4491-8201-a17b657204e0" }
    ∧ OdosErrorCode.AlgoInternal.code = 2999
    ∧ execute_with_retry c7NoRetriesConfig c7StructuredEnv =
        (.err (.Api 500 "Error getting quote, please try again" .AlgoInternal
          (some "10becdc8-a021-4491-8201-a17b657204e0")), 1)
    ∧ (OdosError.Api 500 "Error getting quote, please try again" .AlgoInternal
        (some "10becdc8-a021-4491-8201-a17b657204e0")).category = "api" := by
  refine ⟨rfl, rfl, ?_, rfl⟩
  unfold execute_with_retry
  rw [executeFrom]
  norm_num [c7NoRetriesConfig, c7StructuredEnv, isSuccessStatus, parse_error_response,
    should_retry, OdosErrorCode.fromU16]

/-- C8: for every raw body text, the malformed-body fallback of the
classifier succeeds and yields the raw text as the message, error code
`Unknown 0` and no trace id. -/
theorem malformed_body_fallback (raw : String) :
    parse_error_response (.text raw) =
      { message := raw, code := .Unknown 0, trace_id := none } :=
  rfl

/-- Witness for C8 at a concrete plain-text body. -/
theorem malformed_body_fallback_witness :
    parse_error_response (.text "Internal server error") =
      { message := "Internal server error", code := .Unknown 0, trace_id := none } :=
  malformed_body_fallback "Internal server error"

/-- C9: if `request_builder_fn().build()` fails on an iteration of the
loop, the call returns that failure immediately as an `Http`-classified
error at that very attempt count — for every transport and backoff
generator, so no transport request is issued and no retry follows. -/
theorem build_failure_short_circuits (cfg : RetryConfig)
    (build : Nat → Option HttpErrorFlags) (transport : Nat → AttemptResult)
    (backoff : Nat → Option Nat) (k : Nat) (e : HttpErrorFlags)
    (h : build k = some e) :
    executeFrom cfg ⟨build, transport, backoff⟩ k = (.err (.Http e), k) ∧
    (k = 1 → execute_with_retry cfg ⟨build, transport, backoff⟩ = (.err (.Http e), 1)) := by
  have hmain : executeFrom cfg ⟨build, transport, backoff⟩ k = (.err (.Http e), k) := by
    rw [executeFrom]
    simp [h]
  refine ⟨hmain, fun hk => ?_⟩
  unfold execute_with_retry
  rw [← hk]
  exact hmain

/-- Witness for C9 at a concrete input: a builder failing with a request
error on the first attempt short-circuits, under a transport that would
otherwise always succeed. -/
theorem build_failure_short_circuits_witness :
    execute_with_retry c4DefaultConfig
      { build := fun _ => some ⟨false, false, true⟩
        transport := fun _ => .response 200 none (.text "Success")
        nextBackoff := fun _ => some 1 } =
      (.err (.Http ⟨false, false, true⟩), 1) :=
  (build_failure_short_circuits c4DefaultConfig (fun _ => some ⟨false, false, true⟩)
    (fun _ => .response 200 none (.text "Success")) (fun _ => some 1) 1
    ⟨false, false, true⟩ rfl).2 rfl

set_option maxHeartbeats 1600000 in
/-- C10: the numeric error-code conversion round-trips: for every `u16`
value, mapping it through the numeric-to-variant table and back to its
numeric code is the identity — known codes map to their dedicated variant
and every unrecognized code is preserved inside `Unknown`. -/
theorem error_code_round_trip (n : Nat) (h : n < 65536) :
    (OdosErrorCode.fromU16 n).code = n := by
  simp only [OdosErrorCode.fromU16]
  by_cases h1 : n = 1000
  · subst h1; rfl
  rw [if_neg h1]
  by_cases h2 : n = 2000
  · subst h2; rfl
  rw [if_neg h2]
  by_cases h3 : n = 2400
  · subst h3; rfl
  rw [if_neg h3]
  by_cases h4 : n = 2997
  · subst h4; rfl
  rw [if_neg h4]
  by_cases h5 : n = 2998
  · subst h5; rfl
  rw [if_neg h5]
  by_cases h6 : n = 2999
  · subst h6; rfl
  rw [if_neg h6]
  by_cases h7 : n = 3000
  · subst h7; rfl
  rw [if_neg h7]
  by_cases h8 : n = 3100
  · subst h8; rfl
  rw [if_neg h8]
  by_cases h9 : n = 3101
  · subst h9; rfl
  rw [if_neg h9]
  by_cases h10 : n = 3102
  · subst h10; rfl
  rw [if_neg h10]
  by_cases h11 : n = 3110
  · subst h11; rfl
  rw [if_neg h11]
  by_cases h12 : n = 3111
  · subst h12; rfl
  rw [if_neg h12]
  by_cases h13 : n = 3112
  · subst h13; rfl
  rw [if_neg h13]
  by_cases h14 : n = 3120
  · subst h14; rfl
  rw [if_neg h14]
  by_cases h15 : n = 3121
  · subst h15; rfl
  rw [if_neg h15]
  by_cases h16 : n = 3122
  · subst h16; rfl
  rw [if_neg h16]
  by_cases h17 : n = 3130
  · subst h17; rfl
  rw [if_neg h17]
  by_cases h18 : n = 3131
  · subst h18; rfl
  rw [if_neg h18]
  by_cases h19 : n = 3132
  · subst h19; rfl
  rw [if_neg h19]
  by_cases h20 : n = 3140
  · subst h20; rfl
  rw [if_neg h20]
  by_cases h21 : n = 3141
  · subst h21; rfl
  rw [if_neg h21]
  by_cases h22 : n = 3142
  · subst h22; rfl
  rw [if_neg h22]
  by_cases h23 : n = 3143
  · subst h23; rfl
  rw [if_neg h23]
  by_cases h24 : n = 4000
  · subst h24; rfl
  rw [if_neg h24]
  by_cases h25 : n = 4001
  · subst h25; rfl
  rw [if_neg h25]
  by_cases h26 : n = 4002
  · subst h26; rfl
  rw [if_neg h26]
  by_cases h27 : n = 4003
  · subst h27; rfl
  rw [if_neg h27]
  by_cases h28 : n = 4004
  · subst h28; rfl
  rw [if_neg h28]
  by_cases h29 : n = 4005
  · subst h29; rfl
  rw [if_neg h29]
  by_cases h30 : n = 4006
  · subst h30; rfl
  rw [if_neg h30]
  by_cases h31 : n = 4007
  · subst h31; rfl
  rw [if_neg h31]
  by_cases h32 : n = 4008
  · subst h32; rfl
  rw [if_neg h32]
  by_cases h33 : n = 4009
  · subst h33; rfl
  rw [if_neg h33]
  by_cases h34 : n = 4010
  · subst h34; rfl
  rw [if_neg h34]
  by_cases h35 : n = 4011
  · subst h35; rfl
  rw [if_neg h35]
  by_cases h36 : n = 4012
  · subst h36; rfl
  rw [if_neg h36]
  by_cases h37 : n = 4013
  · subst h37; rfl
  rw [if_neg h37]
  by_cases h38 : n = 4014
  · subst h38; rfl
  rw [if_neg h38]
  by_cases h39 : n = 4015
  · subst h39; rfl
  rw [if_neg h39]
  by_cases h40 : n = 4016
  · subst h40; rfl
  rw [if_neg h40]
  by_cases h41 : n = 4017
  · subst h41; rfl
  rw [if_neg h41]
  by_cases h42 : n = 4018
  · subst h42; rfl
  rw [if_neg h42]
  by_cases h43 : n = 4019
  · subst h43; rfl
  rw [if_neg h43]
  by_cases h44 : n = 4100
  · subst h44; rfl
  rw [if_neg h44]
  by_cases h45 : n = 4101
  · subst h45; rfl
  rw [if_neg h45]
  by_cases h46 : n = 4102
  · subst h46; rfl
  rw [if_neg h46]
  by_cases h47 : n = 4200
  · subst h47; rfl
  rw [if_neg h47]
  by_cases h48 : n = 4201
  · subst h48; rfl
  rw [if_neg h48]
  by_cases h49 : n = 5000
  · subst h49; rfl
  rw [if_neg h49]
  by_cases h50 : n = 5001
  · subst h50; rfl
  rw [if_neg h50]
  by_cases h51 : n = 5002
  · subst h51; rfl
  rw [if_neg h51]
  by_cases h52 : n = 5003
  · subst h52; rfl
  rw [if_neg h52]
  rfl

/-- Witness for C10 at concrete inputs: a known code and an unknown code. -/
theorem error_code_round_trip_witness :
    (OdosErrorCode.fromU16 2999).code = 2999 ∧ (OdosErrorCode.fromU16 9999).code = 9999 :=
  ⟨error_code_round_trip 2999 (by decide), error_code_round_trip 9999 (by decide)⟩

end OdosSdk
